import Mathlib

/-!
Verification of the trust-chain discovery and validation engine of
`spid_cie_oidc` (file `spid_cie_oidc/entity/statements.py`) against its
natural-language specification.

The Python module is shallowly embedded: a decoded JWT is a structure
carrying the (fallible) results of `unpad_jwt_head` / `unpad_jwt_payload`
and, standing for the external Signature Verifier collaborator, the set of
keys under which the compact token verifies.  Fallible Python code becomes
`Except PyErr`; Python `dict`s with string keys become insertion-ordered
association lists; the HTTP fetcher is an oracle parameter.
-/

set_option autoImplicit false

namespace SpidCieOidc

/-- The Python exceptions that can arise in `statements.py`.  Messages
carried by the Python exceptions are dropped; only the exception class
(which is all the control flow inspects) is kept. -/
inductive PyErr where
  /-- `KeyError` raised by `d["k"]` on a mapping lacking key `k`. -/
  | keyError (k : String)
  /-- `TypeError`, e.g. iterating over `None`. -/
  | typeError
  /-- `ValueError` raised by `list.index` when the element is absent. -/
  | valueError
  /-- `UnboundLocalError`/`NameError`: a local variable read before any
  assignment to it has executed. -/
  | nameError (n : String)
  /-- `AttributeError`: an instance attribute that was never assigned. -/
  | attributeError (n : String)
  /-- `IndexError`, e.g. `s[-1]` on an empty string. -/
  | indexError
  /-- `spid_cie_oidc.entity.exceptions.UnknownKid`. -/
  | unknownKid
  /-- A signature-verification failure propagated from `verify_jws`. -/
  | badSignature
  /-- A decode failure propagated from `unpad_jwt_head`/`unpad_jwt_payload`. -/
  | malformed
  /-- `NotImplementedError` (the spec calls it `UnsupportedFeatureError`). -/
  | notImplementedError
  deriving Repr, DecidableEq

/-- A JSON Web Key.  Only the `kid` member is inspected by the code
(`i.get("kid")`), so only it is modelled; a key may lack a `kid`. -/
structure JWK where
  kid : Option String
  deriving Repr, DecidableEq

/-- A decoded JWT header.  The code reads only `header.get("kid")` /
`header["kid"]`. -/
structure JWTHead where
  kid : Option String
  deriving Repr, DecidableEq

/-- The payload claims of a statement that `statements.py` reads.  Each
`Option` field is a claim that may be absent from the JSON object; an
absent claim makes `payload["claim"]` raise `KeyError` while
`payload.get("claim")` yields `None`.  `federation_api_endpoint` stands for
the nested path `payload["metadata"]["federation_entity"]
["federation_api_endpoint"]`; absence of any level of that path raises
`KeyError`, which is what the single `Option` models. -/
structure JWTPayload where
  sub : Option String
  iss : Option String
  jwks : Option (List JWK)
  jwks_uri : Option String
  authority_hints : Option (List String)
  federation_api_endpoint : Option String
  deriving Repr, DecidableEq

instance exceptDecEq {ε α : Type} [DecidableEq ε] [DecidableEq α] :
    DecidableEq (Except ε α) := fun
  | .ok a, .ok b =>
      if h : a = b then .isTrue (by rw [h])
      else .isFalse (by intro he; cases he; exact h rfl)
  | .ok _, .error _ => .isFalse (by intro h; cases h)
  | .error _, .ok _ => .isFalse (by intro h; cases h)
  | .error e, .error f =>
      if h : e = f then .isTrue (by rw [h])
      else .isFalse (by intro he; cases he; exact h rfl)

/-- A compact serialized token, as seen through the two external
collaborators: `headE`/`payloadE` are the results of `unpad_jwt_head` and
`unpad_jwt_payload` (which fail on a malformed segment), and
`verifiableBy` abstracts the black-box Signature Verifier: `verify_jws`
succeeds exactly on the keys in this list. -/
structure JWT where
  headE : Except PyErr JWTHead
  payloadE : Except PyErr JWTPayload
  verifiableBy : List JWK
  deriving Repr, DecidableEq

/-- `verify_jws(jwt, jwk)`: raises on signature failure, returns trivially
on success. -/
def verify_jws (jwt : JWT) (jwk : JWK) : Except PyErr Unit :=
  if jwk ∈ jwt.verifiableBy then .ok () else .error .badSignature

/-- `unpad_jwt_head(jwt)`. -/
def unpad_jwt_head (jwt : JWT) : Except PyErr JWTHead := jwt.headE

/-- `unpad_jwt_payload(jwt)`. -/
def unpad_jwt_payload (jwt : JWT) : Except PyErr JWTPayload := jwt.payloadE

/-- `get_jwks(jwt_payload, httpc_params)`: returns
`jwt_payload.get("jwks")`; the `jwks_uri` branch is commented out in the
source, so a payload with only a remote key-set URI yields `None`.  The
unused `httpc_params` argument is omitted. -/
def get_jwks (jwt_payload : JWTPayload) : Option (List JWK) :=
  jwt_payload.jwks

/-- `OIDCFED_FEDERATION_WELLKNOWN_URL`. -/
def OIDCFED_FEDERATION_WELLKNOWN_URL : String := ".well-known/openid-federation"

/-- The URL built for one subject by `get_entity_configurations`:
`subject[-1]` raises `IndexError` on an empty string; a `/` is appended
when the last character is not already `/`; then the fixed well-known
suffix is appended. -/
def wellknown_url (subject : String) : Except PyErr String :=
  match subject.data.getLast? with
  | none => .error .indexError
  | some c =>
      if c = '/' then .ok (subject ++ OIDCFED_FEDERATION_WELLKNOWN_URL)
      else .ok (subject ++ "/" ++ OIDCFED_FEDERATION_WELLKNOWN_URL)

/-- `get_entity_configurations(subjects, httpc_params)` restricted to the
URL-building part (the subsequent `http_get` is the external fetcher). -/
def get_entity_configurations_urls (subjects : List String) :
    Except PyErr (List String) :=
  subjects.mapM wellknown_url

/-- Python `list.index`: position of the first occurrence. -/
def pyIndex {α : Type} [DecidableEq α] (x : α) : List α → Option Nat
  | [] => none
  | a :: l => if a = x then some 0 else (pyIndex x l).map (· + 1)

/-- Keys of a Python dict modelled as an insertion-ordered assoc list. -/
def dictKeys {α : Type} (m : List (String × α)) : List String :=
  m.map Prod.fst

/-- `d[k] = v` on a Python dict: replace in place if the key exists,
append otherwise. -/
def dictInsert {α : Type} (m : List (String × α)) (k : String) (v : α) :
    List (String × α) :=
  if k ∈ dictKeys m then m.map (fun p => if p.1 = k then (k, v) else p)
  else m ++ [(k, v)]

/-- A value stored in `verified_superiors` / `failed_superiors`.  In
`get_superiors` the stored value is a superior `EntityConfiguration`
(identified here by its token, from which construction is deterministic);
in `validate_by_superior_statement` the very same dicts receive the raw
decoded payload of a superior statement instead. -/
inductive SupVal where
  | conf (jwt : JWT)
  | statementPayload (p : JWTPayload)
  deriving Repr, DecidableEq

/-- The state of an `EntityConfiguration` instance.  `invalid_superiors`
is referenced by `validate_by_superiors` but never assigned in
`__init__`; `none` models the absent attribute (reading it raises
`AttributeError`), `some m` an assigned dict. -/
structure EntityConfiguration where
  jwt : JWT
  header : JWTHead
  payload : JWTPayload
  sub : String
  jwks : List JWK
  kids : List (Option String)
  filter_by_allowed_trust_marks : List String
  verified_superiors : List (String × SupVal)
  failed_superiors : List (String × SupVal)
  verified_by_superiors : List (String × Bool)
  failed_by_superiors : List (String × Bool)
  invalid_superiors : Option (List (String × Unit))
  is_valid : Bool
  deriving Repr, DecidableEq

/-- `EntityConfiguration.__init__`: decodes header and payload, reads
`payload["sub"]` (`KeyError` when absent), computes
`self.jwks = get_jwks(payload)` and then
`self.kids = [i.get("kid") for i in self.jwks]` — iterating `None`
raises `TypeError` when the payload embeds no `jwks` claim — and
initializes the four result dicts empty and `is_valid = False`. -/
def mkEntityConfiguration (jwt : JWT)
    (filter_by_allowed_trust_marks : List String) :
    Except PyErr EntityConfiguration :=
  match unpad_jwt_head jwt with
  | .error e => .error e
  | .ok header =>
    match unpad_jwt_payload jwt with
    | .error e => .error e
    | .ok payload =>
      match payload.sub with
      | none => .error (.keyError "sub")
      | some sub =>
        match get_jwks payload with
        | none => .error .typeError
        | some jwks =>
          .ok { jwt := jwt
                header := header
                payload := payload
                sub := sub
                jwks := jwks
                kids := jwks.map JWK.kid
                filter_by_allowed_trust_marks := filter_by_allowed_trust_marks
                verified_superiors := []
                failed_superiors := []
                verified_by_superiors := []
                failed_by_superiors := []
                invalid_superiors := none
                is_valid := false }

/-- `EntityConfiguration.validate_by_itself`: raises `UnknownKid` when
`header.get("kid")` is absent from `self.kids`; otherwise
`self.header["kid"]` (`KeyError` when the header has no `kid` even though
`None ∈ kids` let the membership test pass), indexes the matching key and
verifies the signature, propagating verifier errors; on success sets
`is_valid = True` and returns `True`. -/
def validate_by_itself (s : EntityConfiguration) :
    Except PyErr (Bool × EntityConfiguration) :=
  if s.header.kid ∈ s.kids then
    match s.header.kid with
    | none => .error (.keyError "kid")
    | some k =>
      match pyIndex (some k) s.kids with
      | none => .error .valueError
      | some i =>
        match s.jwks.get? i with
        | none => .error .indexError
        | some key =>
          match verify_jws s.jwt key with
          | .error e => .error e
          | .ok _ => .ok (true, { s with is_valid := true })
  else .error .unknownKid

/-- `EntityConfiguration.get_valid_trust_marks`: the body is entirely
commented out except an unconditional `raise NotImplementedError()`. -/
def get_valid_trust_marks (_s : EntityConfiguration) : Except PyErr Bool :=
  .error .notImplementedError

/-- `EntityConfiguration.validate_descendant_statement(jwt)`: decodes the
statement's header and payload (the payload value is discarded but a
decode failure still raises), raises `UnknownKid` when the statement's
`kid` is absent from `self.kids`, then `header["kid"]` and signature
verification against the matching key of `self.jwks`. -/
def validate_descendant_statement (s : EntityConfiguration) (jwt : JWT) :
    Except PyErr Bool :=
  match unpad_jwt_head jwt with
  | .error e => .error e
  | .ok header =>
    match unpad_jwt_payload jwt with
    | .error e => .error e
    | .ok _ =>
      if header.kid ∈ s.kids then
        match header.kid with
        | none => .error (.keyError "kid")
        | some k =>
          match pyIndex (some k) s.kids with
          | none => .error .valueError
          | some i =>
            match s.jwks.get? i with
            | none => .error .indexError
            | some key =>
              match verify_jws jwt key with
              | .error e => .error e
              | .ok _ => .ok true
      else .error .unknownKid

/-- The `try` body of `validate_by_superior_statement` after the payload
has been decoded: the superior's self-validation, its descendant-statement
validation of the token, extraction of the key set embedded in the
statement's payload (`TypeError` from iterating `None` when absent),
`self.header["kid"]`, `_kids.index(...)` (`ValueError` when the embedded
kids lack the subject's kid), and re-verification of the subject's own
token against the matched embedded key. -/
def vbss_try (s : EntityConfiguration) (jwt : JWT) (ec : EntityConfiguration)
    (payload : JWTPayload) : Except PyErr Unit :=
  match validate_by_itself ec with
  | .error e => .error e
  | .ok _ =>
    match validate_descendant_statement ec jwt with
    | .error e => .error e
    | .ok _ =>
      match get_jwks payload with
      | none => .error .typeError
      | some jwksE =>
        match s.header.kid with
        | none => .error (.keyError "kid")
        | some k =>
          match pyIndex (some k) (jwksE.map JWK.kid) with
          | none => .error .valueError
          | some i =>
            match jwksE.get? i with
            | none => .error .indexError
            | some key =>
              match verify_jws s.jwt key with
              | .error e => .error e
              | .ok _ => .ok ()

/-- `EntityConfiguration.validate_by_superior_statement(jwt, ec)`: the
`try` block sets `is_valid` from `vbss_try`, with every exception inside
it caught.  Afterwards — outside the `try` — the result is recorded as
`target[payload["iss"]] = payload` where `target` is
`self.verified_superiors` or `self.failed_superiors`: when the payload
decode itself failed the local `payload` was never bound and this line
raises `UnboundLocalError`; when the decoded payload lacks `"iss"` it
raises `KeyError`. -/
def validate_by_superior_statement (s : EntityConfiguration) (jwt : JWT)
    (ec : EntityConfiguration) : Except PyErr (Bool × EntityConfiguration) :=
  match unpad_jwt_payload jwt with
  | .error _ => .error (.nameError "payload")
  | .ok payload =>
    let is_valid : Bool :=
      match vbss_try s jwt ec payload with
      | .ok _ => true
      | .error _ => false
    match payload.iss with
    | none => .error (.keyError "iss")
    | some iss =>
      if is_valid then
        let vs := dictInsert s.verified_superiors iss (.statementPayload payload)
        .ok (true, { s with verified_superiors := vs })
      else
        let fs := dictInsert s.failed_superiors iss (.statementPayload payload)
        .ok (false, { s with failed_superiors := fs })

/-- The fallback `authority_hints = authority_hints or
self.payload["authority_hints"]` at the head of `get_superiors`: an empty
argument list is falsy, so the entity's own declared hints are read
(`KeyError` when the claim is absent). -/
def resolve_hints (s : EntityConfiguration) (authority_hints : List String) :
    Except PyErr (List String) :=
  match authority_hints with
  | [] =>
    match s.payload.authority_hints with
    | none => .error (.keyError "authority_hints")
    | some hints => .ok hints
  | hints => .ok hints

/-- The warning message logged when the hint list exceeds the limit. -/
def truncWarning (hints : List String) (max_authority_hints : Nat) : String :=
  "Found " ++ toString hints.length ++ " but authority maximum hints is set to "
    ++ toString max_authority_hints
    ++ ". the following authorities will be ignored: "
    ++ String.intercalate ", " (hints.drop max_authority_hints)

/-- The truncation clamp of `get_superiors`: when `max_authority_hints` is
nonzero and the list differs from its prefix of that length, warn and keep
only the prefix.  Returns the hints that will be fetched and the warnings
emitted. -/
def truncate_hints (hints : List String) (max_authority_hints : Nat) :
    List String × List String :=
  if max_authority_hints ≠ 0 ∧ hints ≠ hints.take max_authority_hints then
    (hints.take max_authority_hints, [truncWarning hints max_authority_hints])
  else (hints, [])

/-- The prelude of `get_superiors`: resolve the hint list, then clamp it.
The first component of the result is exactly the list of URLs handed to
`get_entity_statements`. -/
def get_superiors_prepared (s : EntityConfiguration)
    (authority_hints : List String) (max_authority_hints : Nat) :
    Except PyErr (List String × List String) :=
  match resolve_hints s authority_hints with
  | .error e => .error e
  | .ok hints => .ok (truncate_hints hints max_authority_hints)

/-- The fetch loop of `get_superiors`: each fetched token is turned into a
nested `EntityConfiguration` and self-validated, with no exception
handling — a constructor or validation error propagates and aborts the
loop.  On success the configuration is stored under `ec.payload["sub"]`
in `verified_superiors` when `validate_by_itself` returned `True`, in
`failed_superiors` otherwise. -/
def superiors_loop (s : EntityConfiguration) :
    List JWT → Except PyErr EntityConfiguration
  | [] => .ok s
  | jwt :: rest =>
    match mkEntityConfiguration jwt [] with
    | .error e => .error e
    | .ok ec =>
      match validate_by_itself ec with
      | .error e => .error e
      | .ok (b, ec) =>
        match ec.payload.sub with
        | none => .error (.keyError "sub")
        | some su =>
          let s :=
            if b then
              { s with verified_superiors :=
                  dictInsert s.verified_superiors su (.conf ec.jwt) }
            else
              { s with failed_superiors :=
                  dictInsert s.failed_superiors su (.conf ec.jwt) }
          superiors_loop s rest

/-- The result of `get_superiors`: the updated instance, the warnings
logged, and the returned `verified_superiors` dict. -/
structure SupOut where
  conf : EntityConfiguration
  warnings : List String
  result : List (String × SupVal)
  deriving Repr, DecidableEq

/-- `EntityConfiguration.get_superiors(authority_hints,
max_authority_hints)`.  `fetch` is the external batch fetcher
(`get_entity_statements` / `http_get`) returning one token body per
URL. -/
def get_superiors (fetch : List String → List JWT) (s : EntityConfiguration)
    (authority_hints : List String) (max_authority_hints : Nat) :
    Except PyErr SupOut :=
  match get_superiors_prepared s authority_hints max_authority_hints with
  | .error e => .error e
  | .ok (hints, warnings) =>
    match superiors_loop s (fetch hints) with
    | .error e => .error e
    | .ok s => .ok ⟨s, warnings, s.verified_superiors⟩

/-- The loop of `validate_by_superiors`, iterated over the superior
entity configurations.  A superior whose federation metadata lacks the
`federation_api_endpoint` path takes the `except KeyError` branch: a
warning is logged and `self.invalid_superiors[ec.sub] = None` executes —
but `invalid_superiors` is never initialized in `__init__`, so reading
the attribute raises `AttributeError`.  Otherwise the one statement the
endpoint issues about the subject is fetched and
`self.verified_by_superiors[ec.sub]` is set to the boolean returned by
`validate_by_superior_statement` (for failed outcomes too).  Returns the
updated instance and the warnings logged. -/
def validate_by_superiors_loop (fetch : String → JWT)
    (s : EntityConfiguration) :
    List EntityConfiguration →
      Except PyErr (EntityConfiguration × List String)
  | [] => .ok (s, [])
  | ec :: rest =>
    match ec.payload.federation_api_endpoint with
    | none =>
      match s.invalid_superiors with
      | none => .error (.attributeError "invalid_superiors")
      | some m =>
        match validate_by_superiors_loop fetch
            { s with invalid_superiors := some (dictInsert m ec.sub ()) }
            rest with
        | .error e => .error e
        | .ok (s, ws) =>
          .ok (s, ("Missing federation_api_endpoint in federation_entity "
            ++ "metadata for " ++ s.sub ++ " by " ++ ec.sub ++ ".") :: ws)
    | some fetch_api_url =>
      match validate_by_superior_statement s (fetch fetch_api_url) ec with
      | .error e => .error e
      | .ok (b, s) =>
        validate_by_superiors_loop fetch
          { s with verified_by_superiors :=
              dictInsert s.verified_by_superiors ec.sub b }
          rest

/-- `EntityConfiguration.validate_by_superiors(superiors_entity_configurations)`.
The parameter is annotated `dict` in the source but every use of the loop
variable treats it as an entity configuration; the sequence of
configurations iterated is modelled as a list.  Returns the updated
instance, the warnings, and the returned `verified_by_superiors` dict. -/
def validate_by_superiors (fetch : String → JWT) (s : EntityConfiguration)
    (superiors_entity_configurations : List EntityConfiguration) :
    Except PyErr (EntityConfiguration × List String × List (String × Bool)) :=
  match validate_by_superiors_loop fetch s superiors_entity_configurations with
  | .error e => .error e
  | .ok (s, ws) => .ok (s, ws, s.verified_by_superiors)

/-! Concrete federation members used to evaluate the definitions on closed
inputs: a leaf entity, a superior authority, and the statements the
superior issues about the leaf. -/

/-- Signing key of the leaf entity. -/
def kLeaf : JWK := { kid := some "leaf-kid" }

/-- Signing key of the superior authority. -/
def kSup : JWK := { kid := some "sup-kid" }

/-- A key unrelated to either entity. -/
def kOther : JWK := { kid := some "other-kid" }

/-- Payload of the self-signed configuration of the leaf. -/
def leafPayload : JWTPayload :=
  { sub := some "https://leaf.example"
    iss := some "https://leaf.example"
    jwks := some [kLeaf]
    jwks_uri := none
    authority_hints := some ["https://sup.example"]
    federation_api_endpoint := none }

/-- The self-signed configuration token of the leaf. -/
def leafJwt : JWT :=
  { headE := .ok { kid := some "leaf-kid" }
    payloadE := .ok leafPayload
    verifiableBy := [kLeaf] }

/-- The freshly constructed `EntityConfiguration` of the leaf. -/
def leafEC : EntityConfiguration :=
  { jwt := leafJwt
    header := { kid := some "leaf-kid" }
    payload := leafPayload
    sub := "https://leaf.example"
    jwks := [kLeaf]
    kids := [some "leaf-kid"]
    filter_by_allowed_trust_marks := []
    verified_superiors := []
    failed_superiors := []
    verified_by_superiors := []
    failed_by_superiors := []
    invalid_superiors := none
    is_valid := false }

/-- Payload of the self-signed configuration of the superior, declaring a
federation fetch endpoint. -/
def supPayload : JWTPayload :=
  { sub := some "https://sup.example"
    iss := some "https://sup.example"
    jwks := some [kSup]
    jwks_uri := none
    authority_hints := none
    federation_api_endpoint := some "https://sup.example/fetch" }

/-- The self-signed configuration token of the superior. -/
def supJwt : JWT :=
  { headE := .ok { kid := some "sup-kid" }
    payloadE := .ok supPayload
    verifiableBy := [kSup] }

/-- The freshly constructed `EntityConfiguration` of the superior. -/
def supEC : EntityConfiguration :=
  { jwt := supJwt
    header := { kid := some "sup-kid" }
    payload := supPayload
    sub := "https://sup.example"
    jwks := [kSup]
    kids := [some "sup-kid"]
    filter_by_allowed_trust_marks := []
    verified_superiors := []
    failed_superiors := []
    verified_by_superiors := []
    failed_by_superiors := []
    invalid_superiors := none
    is_valid := false }

/-- Payload like `supPayload` but with no `federation_api_endpoint` path
in the federation metadata. -/
def supPayloadNoEp : JWTPayload :=
  { supPayload with federation_api_endpoint := none }

/-- The superior with no declared fetch endpoint. -/
def supNoEpEC : EntityConfiguration :=
  { supEC with payload := supPayloadNoEp }

/-- Payload of the statement the superior issues about the leaf: issued by
the superior, about the leaf, embedding the key set it vouches the leaf
owns. -/
def stmtPayload : JWTPayload :=
  { sub := some "https://leaf.example"
    iss := some "https://sup.example"
    jwks := some [kLeaf]
    jwks_uri := none
    authority_hints := none
    federation_api_endpoint := none }

/-- The statement token, signed with the key of the superior. -/
def goodStatement : JWT :=
  { headE := .ok { kid := some "sup-kid" }
    payloadE := .ok stmtPayload
    verifiableBy := [kSup] }

/-- Statement payload whose embedded key set lacks the signing kid of the
leaf. -/
def badKidStmtPayload : JWTPayload :=
  { stmtPayload with jwks := some [kOther] }

/-- Statement whose embedded key set cannot re-verify the leaf token. -/
def badKidStatement : JWT :=
  { goodStatement with payloadE := .ok badKidStmtPayload }

/-- A token whose payload segment fails to decode. -/
def badPayloadJwt : JWT :=
  { headE := .ok { kid := some "sup-kid" }
    payloadE := .error .malformed
    verifiableBy := [] }

/-- A fetched superior configuration token whose header kid does not occur
in its own embedded key set, so its self-validation raises `UnknownKid`. -/
def badSupJwt : JWT :=
  { headE := .ok { kid := some "bad-kid" }
    payloadE := .ok
      { sub := some "https://bad.example"
        iss := some "https://bad.example"
        jwks := some [kOther]
        jwks_uri := none
        authority_hints := none
        federation_api_endpoint := none }
    verifiableBy := [] }

/-- The leaf with a non-empty trust-mark filter supplied by the caller. -/
def leafWithFilter : EntityConfiguration :=
  { leafEC with filter_by_allowed_trust_marks := ["https://tm.example/mark"] }

/-- A payload declaring only a remote key-set URI, no embedded `jwks`. -/
def uriOnlyPayload : JWTPayload :=
  { leafPayload with
    jwks := none
    jwks_uri := some "https://leaf.example/jwks.json" }

/-- A token whose decoded payload lacks the `sub` claim. -/
def noSubJwt : JWT :=
  { headE := .ok { kid := some "leaf-kid" }
    payloadE := .ok { leafPayload with sub := none }
    verifiableBy := [kLeaf] }

/-- The subject normalized as the specification words it: a single
trailing separator appended when missing. -/
def spec_normalized_subject (subject : String) : String :=
  if subject.data.getLast? = some '/' then subject else subject ++ "/"

/-- The discovery URL as the specification words it: the normalized
subject followed by the fixed discovery suffix. -/
def spec_wellknown_url_str (subject : String) : String :=
  spec_normalized_subject subject ++ OIDCFED_FEDERATION_WELLKNOWN_URL

/-! Helper lemmas about the embedded operations. -/

theorem pyIndex_eq_none {α : Type} [DecidableEq α] (x : α) :
    ∀ (l : List α), x ∉ l → pyIndex x l = none
  | [], _ => rfl
  | a :: l, h => by
    have h1 : ¬ a = x := by
      intro e
      exact h (by rw [e]; exact List.mem_cons_self x l)
    have h2 : x ∉ l := fun hx => h (List.mem_cons_of_mem a hx)
    simp [pyIndex, h1, pyIndex_eq_none x l h2]

theorem dictKeys_map_update {α : Type} (m : List (String × α)) (k : String)
    (v : α) :
    dictKeys (m.map (fun p => if p.1 = k then (k, v) else p)) = dictKeys m := by
  induction m with
  | nil => rfl
  | cons p m ih =>
    by_cases h : p.1 = k
    · simp [dictKeys, h] at ih ⊢
      exact ih
    · simp [dictKeys, h] at ih ⊢
      exact ih

theorem mem_dictKeys_dictInsert {α : Type} (m : List (String × α))
    (k k' : String) (v : α) :
    k' ∈ dictKeys (dictInsert m k v) ↔ k' ∈ dictKeys m ∨ k' = k := by
  unfold dictInsert
  by_cases hk : k ∈ dictKeys m
  · rw [if_pos hk, dictKeys_map_update]
    constructor
    · exact Or.inl
    · rintro (h | h)
      · exact h
      · rw [h]; exact hk
  · rw [if_neg hk]
    simp [dictKeys]

theorem validate_by_itself_ok {s : EntityConfiguration} {b : Bool}
    {s' : EntityConfiguration} (h : validate_by_itself s = .ok (b, s')) :
    b = true ∧ s' = { s with is_valid := true } := by
  unfold validate_by_itself at h
  split at h
  · split at h
    · exact Except.noConfusion h
    · split at h
      · exact Except.noConfusion h
      · split at h
        · exact Except.noConfusion h
        · split at h
          · exact Except.noConfusion h
          · injection h with h1
            exact ⟨(congrArg Prod.fst h1).symm, (congrArg Prod.snd h1).symm⟩
  · exact Except.noConfusion h

theorem mkEntityConfiguration_ok {jwt : JWT} {f : List String}
    {ec : EntityConfiguration} (h : mkEntityConfiguration jwt f = .ok ec) :
    jwt.payloadE = .ok ec.payload ∧ ec.payload.sub = some ec.sub ∧
      ec.jwt = jwt := by
  unfold mkEntityConfiguration unpad_jwt_head unpad_jwt_payload at h
  split at h
  · exact Except.noConfusion h
  · split at h
    · exact Except.noConfusion h
    · split at h
      · exact Except.noConfusion h
      · split at h
        · exact Except.noConfusion h
        · injection h with h1
          subst h1
          refine ⟨by assumption, ?_, rfl⟩
          simp only []
          assumption

theorem superiors_loop_keys :
    ∀ (jwts : List JWT) (s s' : EntityConfiguration),
      superiors_loop s jwts = .ok s' → ∀ k : String,
      (k ∈ dictKeys s'.verified_superiors →
        k ∈ dictKeys s.verified_superiors ∨
        ∃ t, t ∈ jwts ∧ ∃ p, t.payloadE = .ok p ∧ p.sub = some k) ∧
      (k ∈ dictKeys s'.failed_superiors →
        k ∈ dictKeys s.failed_superiors ∨
        ∃ t, t ∈ jwts ∧ ∃ p, t.payloadE = .ok p ∧ p.sub = some k)
  | [], s, s', h, k => by
    unfold superiors_loop at h
    injection h with h1
    subst h1
    exact ⟨fun hk => Or.inl hk, fun hk => Or.inl hk⟩
  | t :: rest, s, s', h, k => by
    unfold superiors_loop at h
    cases hmk : mkEntityConfiguration t [] with
    | error e => simp only [hmk] at h; exact Except.noConfusion h
    | ok ec =>
      simp only [hmk] at h
      cases hv : validate_by_itself ec with
      | error e => simp only [hv] at h; exact Except.noConfusion h
      | ok bec =>
        obtain ⟨b, ec2⟩ := bec
        obtain ⟨hb, hec2⟩ := validate_by_itself_ok hv
        subst hb
        simp only [hv] at h
        cases hsu : ec2.payload.sub with
        | none => simp only [hsu] at h; exact Except.noConfusion h
        | some su =>
          simp only [hsu, if_true] at h
          have hmkf := mkEntityConfiguration_ok hmk
          have ih := superiors_loop_keys rest _ s' h k
          have hpayload : t.payloadE = .ok ec2.payload := by
            rw [hec2]; exact hmkf.1
          constructor
          · intro hk
            rcases ih.1 hk with hk1 | hk1
            · simp only [] at hk1
              rcases (mem_dictKeys_dictInsert _ su k _).1 hk1 with hk2 | hk2
              · exact Or.inl hk2
              · exact Or.inr ⟨t, List.mem_cons_self t rest,
                  ec2.payload, hpayload, by rw [hk2]; exact hsu⟩
            · obtain ⟨t2, ht2, hp⟩ := hk1
              exact Or.inr ⟨t2, List.mem_cons_of_mem t ht2, hp⟩
          · intro hk
            rcases ih.2 hk with hk1 | hk1
            · exact Or.inl hk1
            · obtain ⟨t2, ht2, hp⟩ := hk1
              exact Or.inr ⟨t2, List.mem_cons_of_mem t ht2, hp⟩

theorem vbss_try_error_of_kid_missing (s : EntityConfiguration) (jwt : JWT)
    (ec : EntityConfiguration) (payload : JWTPayload) (jwksE : List JWK)
    (k : String) (hjwks : payload.jwks = some jwksE)
    (hk : s.header.kid = some k) (hmiss : (some k) ∉ jwksE.map JWK.kid) :
    ∃ e, vbss_try s jwt ec payload = .error e := by
  cases hvi : validate_by_itself ec with
  | error e => exact ⟨e, by simp [vbss_try, hvi]⟩
  | ok u =>
    cases hvd : validate_descendant_statement ec jwt with
    | error e => exact ⟨e, by simp [vbss_try, hvi, hvd]⟩
    | ok v =>
      exact ⟨.valueError, by
        simp [vbss_try, hvi, hvd, get_jwks, hjwks, hk,
          pyIndex_eq_none _ _ hmiss]⟩

theorem resolve_hints_of_ne_nil (s : EntityConfiguration)
    (hints : List String) (h : hints ≠ []) :
    resolve_hints s hints = .ok hints := by
  cases hints with
  | nil => exact absurd rfl h
  | cons a l => rfl

theorem take_ne_of_lt {α : Type} (l : List α) (n : Nat) (h : n < l.length) :
    l ≠ l.take n := by
  intro he
  have hlen : l.length = (l.take n).length := congrArg List.length he
  rw [List.length_take] at hlen
  omega

theorem superiors_loop_filter (f : List String) :
    ∀ (jwts : List JWT) (s : EntityConfiguration),
      superiors_loop { s with filter_by_allowed_trust_marks := f } jwts =
        (superiors_loop s jwts).map
          (fun s2 => { s2 with filter_by_allowed_trust_marks := f })
  | [], s => rfl
  | t :: rest, s => by
    unfold superiors_loop
    cases hmk : mkEntityConfiguration t [] with
    | error e => simp only [hmk, Except.map]
    | ok ec =>
      simp only [hmk]
      cases hv : validate_by_itself ec with
      | error e => simp only [hv, Except.map]
      | ok bec =>
        obtain ⟨b, ec2⟩ := bec
        simp only [hv]
        cases hsu : ec2.payload.sub with
        | none => simp only [hsu, Except.map]
        | some su =>
          simp only [hsu]
          cases b with
          | true =>
            rw [if_pos rfl, if_pos rfl]
            exact superiors_loop_filter f rest
              { s with verified_superiors :=
                  dictInsert s.verified_superiors su (.conf ec2.jwt) }
          | false =>
            rw [if_neg (by decide), if_neg (by decide)]
            exact superiors_loop_filter f rest
              { s with failed_superiors :=
                  dictInsert s.failed_superiors su (.conf ec2.jwt) }

/-- C1: the claim fails on the code.  When the payload of the statement
token does not decode, the exception is caught inside the `try` block, but
the recording line `target[payload["iss"]] = payload` that runs after it
reads the local `payload` that was never bound, so `UnboundLocalError`
escapes `validate_by_superior_statement` instead of the boolean `False`
the specification promises. -/
theorem validate_by_superior_statement_decode_failure_escapes :
    validate_by_superior_statement leafEC badPayloadJwt supEC =
      .error (.nameError "payload") := by decide

/-- C2: the claim fails on the code.  A successful cross-validation stores
the decoded statement payload under the issuer in `verified_superiors`
(the dict reserved for resolved superior configurations), leaving
`verified_by_superiors` untouched; a failed one stores it in
`failed_superiors`, and the only write to `verified_by_superiors` is done
by `validate_by_superiors`, which records the boolean there even when it
is `False`, while `failed_by_superiors` is never written. -/
theorem cross_validation_recorded_in_wrong_maps :
    validate_by_superior_statement leafEC goodStatement supEC =
      .ok (true,
        { leafEC with verified_superiors :=
            [("https://sup.example", .statementPayload stmtPayload)] }) ∧
    validate_by_superiors (fun _ => badKidStatement) leafEC [supEC] =
      .ok
        ({ leafEC with
            failed_superiors :=
              [("https://sup.example", .statementPayload badKidStmtPayload)]
            verified_by_superiors := [("https://sup.example", false)] },
          [], [("https://sup.example", false)]) :=
  ⟨by decide, by decide⟩

/-- C3: the claim fails on the code.  For a superior whose federation
metadata lacks `federation_api_endpoint`, the `except KeyError` handler
runs `self.invalid_superiors[ec.sub] = None`, but the attribute
`invalid_superiors` is never initialized in `__init__`, so
`AttributeError` escapes `validate_by_superiors` and the remaining
superiors (here a perfectly valid one) are never processed. -/
theorem missing_endpoint_superior_raises_attribute_error :
    validate_by_superiors (fun _ => goodStatement) leafEC
      [supNoEpEC, supEC] = .error (.attributeError "invalid_superiors") := by
  decide

/-- C4: the claim fails on the code.  `validate_by_itself` raises instead
of returning `False`, and the loop of `get_superiors` has no exception
handling, so a fetched superior token that fails self-validation
(`badSupJwt`, whose header kid is absent from its key set) aborts the
whole batch with `UnknownKid`: nothing lands in `failed_superiors` and the
valid token after it is never processed.  The second conjunct shows the
successful route into `verified_superiors` for an all-valid batch. -/
theorem get_superiors_aborts_on_failed_self_validation :
    get_superiors (fun _ => [badSupJwt, supJwt]) leafEC
      ["https://bad.example", "https://sup.example"] 0 =
        .error .unknownKid ∧
    get_superiors (fun _ => [supJwt]) leafEC ["https://sup.example"] 0 =
      .ok
        ⟨{ leafEC with verified_superiors :=
              [("https://sup.example", .conf supJwt)] },
          [], [("https://sup.example", .conf supJwt)]⟩ :=
  ⟨by decide, by decide⟩

/-- C6: a well-formed superior statement (decodable payload with an `iss`
claim) whose embedded key set does not contain the signing kid of the
subject makes `validate_by_superior_statement` return `False` without
raising: the `ValueError` of `_kids.index(...)` is caught by the `try`
block, and the recording line succeeds because `payload["iss"]` is
present. -/
theorem validate_by_superior_statement_unknown_kid_false
    (s : EntityConfiguration) (jwt : JWT) (ec : EntityConfiguration)
    (payload : JWTPayload) (iss : String) (jwksE : List JWK) (k : String)
    (hp : jwt.payloadE = .ok payload) (hiss : payload.iss = some iss)
    (hjwks : payload.jwks = some jwksE) (hk : s.header.kid = some k)
    (hmiss : (some k) ∉ jwksE.map JWK.kid) :
    validate_by_superior_statement s jwt ec =
      .ok (false,
        { s with failed_superiors :=
            dictInsert s.failed_superiors iss (.statementPayload payload) }) := by
  obtain ⟨e, he⟩ :=
    vbss_try_error_of_kid_missing s jwt ec payload jwksE k hjwks hk hmiss
  simp [validate_by_superior_statement, unpad_jwt_payload, hp, he, hiss]

/-- Witness for C6: the concrete statement `badKidStatement` embeds only
`kOther`, which cannot match the leaf kid, so cross-validation returns
`False` and records the payload under the issuer. -/
theorem validate_by_superior_statement_unknown_kid_false_witness :
    validate_by_superior_statement leafEC badKidStatement supEC =
      .ok (false, { leafEC with failed_superiors := dictInsert leafEC.failed_superiors "https://sup.example" (.statementPayload badKidStmtPayload) }) :=
  validate_by_superior_statement_unknown_kid_false leafEC badKidStatement
    supEC badKidStmtPayload "https://sup.example" [kOther] "leaf-kid"
    rfl rfl rfl rfl (by decide)

/-- C5: with a positive limit smaller than the length of the hint list,
`get_superiors` hands the fetcher exactly the first `max_authority_hints`
hints in original order and logs the one warning `truncWarning`, which by
definition names the discarded hints (`String.intercalate ", "
(hints.drop max)`); starting from a fresh configuration, a discarded hint
appears in neither `verified_superiors` nor `failed_superiors` nor the
returned dict, provided every fetched token declares a subject among the
fetched hints; and with a zero limit, or a list not exceeding the limit,
no truncation and no warning occurs. -/
theorem get_superiors_truncation
    (s : EntityConfiguration) (fetch : List String → List JWT)
    (hints : List String) (maxh : Nat)
    (hne : hints ≠ []) (hpos : maxh ≠ 0) (hlong : maxh < hints.length)
    (hfresh : s.verified_superiors = [] ∧ s.failed_superiors = [])
    (hsub : ∀ t, t ∈ fetch (hints.take maxh) → ∀ p, t.payloadE = .ok p →
      ∀ su, p.sub = some su → su ∈ hints.take maxh) :
    get_superiors_prepared s hints maxh =
      .ok (hints.take maxh, [truncWarning hints maxh]) ∧
    (∀ out, get_superiors fetch s hints maxh = .ok out →
      ∀ d, d ∈ hints.drop maxh → d ∉ hints.take maxh →
        d ∉ dictKeys out.conf.verified_superiors ∧
        d ∉ dictKeys out.conf.failed_superiors ∧
        d ∉ dictKeys out.result) ∧
    (∀ (hints2 : List String) (maxh2 : Nat), hints2 ≠ [] →
      (maxh2 = 0 ∨ hints2.length ≤ maxh2) →
      get_superiors_prepared s hints2 maxh2 = .ok (hints2, [])) := by
  have hprep : get_superiors_prepared s hints maxh =
      .ok (hints.take maxh, [truncWarning hints maxh]) := by
    unfold get_superiors_prepared
    simp only [resolve_hints_of_ne_nil s hints hne]
    unfold truncate_hints
    rw [if_pos ⟨hpos, take_ne_of_lt hints maxh hlong⟩]
  refine ⟨hprep, ?_, ?_⟩
  · intro out hout d hd hdnot
    simp only [get_superiors, hprep] at hout
    cases hloop : superiors_loop s (fetch (hints.take maxh)) with
    | error e =>
      simp only [hloop] at hout
      exact Except.noConfusion hout
    | ok s2 =>
      simp only [hloop] at hout
      have hkeys := superiors_loop_keys (fetch (hints.take maxh)) s s2 hloop d
      have hver : d ∉ dictKeys s2.verified_superiors := by
        intro hk
        rcases hkeys.1 hk with h1 | h1
        · rw [hfresh.1] at h1
          cases h1
        · obtain ⟨t, ht, p, hp, hps⟩ := h1
          exact hdnot (hsub t ht p hp d hps)
      have hfail : d ∉ dictKeys s2.failed_superiors := by
        intro hk
        rcases hkeys.2 hk with h1 | h1
        · rw [hfresh.2] at h1
          cases h1
        · obtain ⟨t, ht, p, hp, hps⟩ := h1
          exact hdnot (hsub t ht p hp d hps)
      injection hout with h1
      subst h1
      exact ⟨hver, hfail, hver⟩
  · intro hints2 maxh2 hne2 hle
    have hcond : ¬ (maxh2 ≠ 0 ∧ hints2 ≠ hints2.take maxh2) := by
      rcases hle with h0 | hlen
      · intro hc; exact hc.1 h0
      · intro hc; exact hc.2 (List.take_of_length_le hlen).symm
    unfold get_superiors_prepared
    simp only [resolve_hints_of_ne_nil s hints2 hne2]
    unfold truncate_hints
    rw [if_neg hcond]

/-- Witness for C5: five hints, a limit of three: the prepared fetch list
is exactly the first three hints with the truncation warning, and the
discarded hint `"d"` is absent from all result dicts of a run whose
fetcher returns no token. -/
theorem get_superiors_truncation_witness :
    get_superiors_prepared leafEC ["a", "b", "c", "d", "e"] 3 =
      .ok (["a", "b", "c"], [truncWarning ["a", "b", "c", "d", "e"] 3]) ∧
    ("d" ∉ dictKeys leafEC.verified_superiors ∧
      "d" ∉ dictKeys leafEC.failed_superiors ∧
      "d" ∉ dictKeys leafEC.verified_superiors) := by
  have h := get_superiors_truncation leafEC (fun _ => [])
    ["a", "b", "c", "d", "e"] 3 (by decide) (by decide) (by decide)
    ⟨rfl, rfl⟩ (by intro t ht; cases ht)
  exact ⟨h.1, h.2.1 ⟨leafEC, [truncWarning ["a", "b", "c", "d", "e"] 3],
    leafEC.verified_superiors⟩ rfl "d" (by decide) (by decide)⟩

/-- C7 counterexample: the claim promises that a non-empty
`filter_by_allowed_trust_marks` makes resolution fail loudly with the
unsupported-feature error, but a full `get_superiors` resolution run on a
configuration carrying a non-empty filter completes normally — the filter
is silently ignored. -/
theorem resolution_with_filter_does_not_raise :
    validate_by_itself leafWithFilter = .ok (true, { leafWithFilter with is_valid := true }) ∧
    get_superiors (fun _ => [supJwt]) leafWithFilter ["https://sup.example"] 0 =
      .ok
        ⟨{ leafWithFilter with verified_superiors :=
              [("https://sup.example", .conf supJwt)] },
          [], [("https://sup.example", .conf supJwt)]⟩ :=
  ⟨by decide, by decide⟩

/-- C7 as amended: the only trust-mark operation of the class,
`get_valid_trust_marks`, fails loudly with `NotImplementedError` whenever
it is invoked, for empty and non-empty filters alike; resolution itself
(`get_superiors`) never consults the stored filter: its outcome is the
same for every filter value, up to the filter field carried along in the
returned configuration. -/
theorem trust_mark_validation_unimplemented :
    (∀ s : EntityConfiguration,
      get_valid_trust_marks s = .error .notImplementedError) ∧
    (∀ (fetch : List String → List JWT) (s : EntityConfiguration)
        (f ah : List String) (m : Nat),
      get_superiors fetch { s with filter_by_allowed_trust_marks := f } ah m =
        (get_superiors fetch s ah m).map
          (fun out => ⟨{ out.conf with filter_by_allowed_trust_marks := f },
            out.warnings, out.result⟩)) := by
  refine ⟨fun _ => rfl, ?_⟩
  intro fetch s f ah m
  have hprep : get_superiors_prepared
      { s with filter_by_allowed_trust_marks := f } ah m =
      get_superiors_prepared s ah m := rfl
  simp only [get_superiors, hprep]
  cases hp : get_superiors_prepared s ah m with
  | error e => simp only [Except.map]
  | ok pair =>
    obtain ⟨hints, ws⟩ := pair
    simp only [superiors_loop_filter]
    cases hloop : superiors_loop s (fetch hints) with
    | error e => simp only [hloop, Except.map]
    | ok s2 => simp only [hloop, Except.map]

/-- C8 counterexample: a payload that declares only a remote key-set URI
(`jwks_uri`) and embeds no `jwks` makes `get_jwks` return `None` with no
error of any kind — the claimed `UnsupportedFeatureError` is never
raised, because the remote branch is commented out in the source. -/
theorem get_jwks_uri_only_silently_none :
    get_jwks uriOnlyPayload = none ∧ uriOnlyPayload.jwks_uri.isSome = true :=
  ⟨rfl, rfl⟩

/-- C8 as amended: key-set extraction returns exactly the embedded `jwks`
claim of the payload — the declared remote key-set URI is never consulted
and never causes an error; a payload without an embedded `jwks` yields
`None` silently. -/
theorem get_jwks_returns_embedded_only :
    (∀ p : JWTPayload, get_jwks p = p.jwks) ∧
    (∀ (p : JWTPayload) (u : Option String),
      get_jwks { p with jwks_uri := u } = get_jwks p) :=
  ⟨fun _ => rfl, fun _ _ => rfl⟩

theorem mapM_wellknown_singleton (a b : String)
    (h : wellknown_url a = .ok b) :
    get_entity_configurations_urls [a] = .ok [b] := by
  unfold get_entity_configurations_urls
  simp [List.mapM, List.mapM.loop, h]

/-- C9: for every non-empty subject URL, the discovery URL built by
`get_entity_configurations` equals the subject with a single trailing
separator followed by `.well-known/openid-federation`: a subject already
ending in `/` gains no extra separator, and one not ending in `/` gains
exactly one. -/
theorem wellknown_url_spec (subject : String) (h : subject ≠ "") :
    wellknown_url subject = .ok (spec_wellknown_url_str subject) ∧
    (spec_normalized_subject subject).data.getLast? = some '/' ∧
    (subject.data.getLast? = some '/' →
      spec_normalized_subject subject = subject) ∧
    (subject.data.getLast? ≠ some '/' →
      spec_normalized_subject subject = subject ++ "/") ∧
    get_entity_configurations_urls [subject] =
      .ok [spec_wellknown_url_str subject] := by
  have hslashdata : ("/" : String).data = ['/'] := rfl
  have hslash : (subject ++ "/").data.getLast? = some '/' := by
    rw [String.data_append, hslashdata]
    exact List.getLast?_concat _
  cases hL : subject.data.getLast? with
  | none =>
    exfalso
    apply h
    have hdata : subject.data = [] := List.getLast?_eq_none_iff.mp hL
    exact String.ext (by rw [hdata])
  | some c =>
    by_cases hc : c = '/'
    · subst hc
      have hnorm : spec_normalized_subject subject = subject := by
        unfold spec_normalized_subject
        rw [if_pos hL]
      have hmain : wellknown_url subject = .ok (spec_wellknown_url_str subject) := by
        unfold wellknown_url
        simp only [hL, if_true]
        unfold spec_wellknown_url_str
        rw [hnorm]
      refine ⟨hmain, ?_, fun _ => hnorm, fun hne2 => absurd rfl hne2, ?_⟩
      · rw [hnorm]; exact hL
      · exact mapM_wellknown_singleton subject _ hmain
    · have hcond : ¬ subject.data.getLast? = some ('/' : Char) := by
        rw [hL]
        intro he
        exact hc (Option.some.inj he)
      have hnorm : spec_normalized_subject subject = subject ++ "/" := by
        unfold spec_normalized_subject
        rw [if_neg hcond]
      have hmain : wellknown_url subject = .ok (spec_wellknown_url_str subject) := by
        unfold wellknown_url
        simp only [hL]
        rw [if_neg hc]
        unfold spec_wellknown_url_str
        rw [hnorm]
      refine ⟨hmain, ?_, fun h2 => absurd (Option.some.inj h2) hc,
        fun _ => hnorm, ?_⟩
      · rw [hnorm]; exact hslash
      · exact mapM_wellknown_singleton subject _ hmain

/-- Witness for C9: a subject without a trailing separator gains exactly
one; a subject with one gains none. -/
theorem wellknown_url_spec_witness :
    wellknown_url "https://rp.example.org" =
      .ok (spec_wellknown_url_str "https://rp.example.org") ∧
    wellknown_url "https://rp.example.org/" =
      .ok (spec_wellknown_url_str "https://rp.example.org/") ∧
    spec_wellknown_url_str "https://rp.example.org" =
      "https://rp.example.org/.well-known/openid-federation" :=
  ⟨(wellknown_url_spec "https://rp.example.org" (by decide)).1,
    (wellknown_url_spec "https://rp.example.org/" (by decide)).1,
    by decide⟩

/-- C10: constructing an `EntityConfiguration` from a decodable token
fails at construction time — before any validation method can run — with
`KeyError` when the payload lacks `sub`, and with `TypeError` (iterating
`None`) when it embeds no `jwks`; when both claims are present it
succeeds and initializes the four result dicts empty, no
`invalid_superiors` attribute, and `is_valid = False`. -/
theorem mkEntityConfiguration_spec (jwt : JWT) (f : List String)
    (header : JWTHead) (p : JWTPayload)
    (hh : jwt.headE = .ok header) (hp : jwt.payloadE = .ok p) :
    (p.sub = none → mkEntityConfiguration jwt f = .error (.keyError "sub")) ∧
    (∀ su, p.sub = some su → p.jwks = none →
      mkEntityConfiguration jwt f = .error .typeError) ∧
    (∀ su l, p.sub = some su → p.jwks = some l →
      mkEntityConfiguration jwt f = .ok
        { jwt := jwt
          header := header
          payload := p
          sub := su
          jwks := l
          kids := l.map JWK.kid
          filter_by_allowed_trust_marks := f
          verified_superiors := []
          failed_superiors := []
          verified_by_superiors := []
          failed_by_superiors := []
          invalid_superiors := none
          is_valid := false }) := by
  refine ⟨?_, ?_, ?_⟩
  · intro hsub
    simp only [mkEntityConfiguration, unpad_jwt_head, unpad_jwt_payload,
      hh, hp, hsub]
  · intro su hsub hjwks
    simp only [mkEntityConfiguration, unpad_jwt_head, unpad_jwt_payload,
      hh, hp, hsub, get_jwks, hjwks]
  · intro su l hsub hjwks
    simp only [mkEntityConfiguration, unpad_jwt_head, unpad_jwt_payload,
      hh, hp, hsub, get_jwks, hjwks]

/-- Witness for C10: a token lacking `sub` is rejected at construction,
and the leaf token constructs to the fresh configuration `leafEC`, whose
result dicts are all empty and whose `is_valid` is `False`. -/
theorem mkEntityConfiguration_spec_witness :
    mkEntityConfiguration noSubJwt [] = .error (.keyError "sub") ∧
    (mkEntityConfiguration leafJwt [] = .ok leafEC ∧
      leafEC.verified_superiors = [] ∧ leafEC.failed_superiors = [] ∧
      leafEC.verified_by_superiors = [] ∧ leafEC.failed_by_superiors = [] ∧
      leafEC.invalid_superiors = none ∧ leafEC.is_valid = false) :=
  ⟨(mkEntityConfiguration_spec noSubJwt [] { kid := some "leaf-kid" }
      { leafPayload with sub := none } rfl rfl).1 rfl,
    (mkEntityConfiguration_spec leafJwt [] { kid := some "leaf-kid" }
      leafPayload rfl rfl).2.2 "https://leaf.example" [kLeaf] rfl rfl,
    rfl, rfl, rfl, rfl, rfl, rfl⟩

end SpidCieOidc
